import Mathlib

/-!
Verification development for a small Confluence MCP server
(src/confluence/confluence-server.py).

The Python program is shallowly embedded: JSON payloads become an inductive
`Json`, outbound HTTP is a deterministic oracle `World : HttpRequest →
HttpResponse`, Python exceptions become `Except SrvError`, and every
operation returns its result together with the list of HTTP requests it
issued (its trace), so that "issues one GET" / "issues no HTTP call"
properties are statable.
-/

namespace ConfluenceServer

/-- JSON values as passed between the server and the wiki API.  Numbers are
modelled as integers (no claim involves fractional numbers). -/
inductive Json where
  | null : Json
  | bool : Bool → Json
  | num : Int → Json
  | str : String → Json
  | arr : List Json → Json
  | obj : List (String × Json) → Json
deriving Repr

/-- Python `d[k]` on a JSON value: a lookup that raises (here: `none`) when
the value is not an object or the key is absent. -/
def Json.index (j : Json) (k : String) : Option Json :=
  match j with
  | .obj kvs => kvs.lookup k
  | _ => none

/-- Python truthiness (`if not x`) restricted to JSON values: `None`, `False`,
`0`, `""`, `[]` and `\x7b\x7d` are falsy, everything else truthy. -/
def Json.truthy : Json → Bool
  | .null => false
  | .bool b => b
  | .num n => n != 0
  | .str s => s != ""
  | .arr l => !l.isEmpty
  | .obj l => !l.isEmpty

/-- Truthiness of `arguments.get(k)`: `None` (absent key) is falsy. -/
def optTruthy : Option Json → Bool
  | none => false
  | some j => j.truthy

/-- Truthiness of `os.getenv` results: `None` and `""` are falsy. -/
def envTruthy : Option String → Bool
  | none => false
  | some s => s != ""

/-! ### Base64 (model of `base64.b64encode` over ASCII bytes) -/

def b64Alphabet : List Char :=
  "ABCDEFGHIJKLMNOPQRSTUVWXYZabcdefghijklmnopqrstuvwxyz0123456789+/".toList

def b64Char (n : Nat) : Char := b64Alphabet.getD n 'A'

/-- Standard base64 of a byte list, 3 bytes → 4 sextet characters, with
`=` padding. -/
def b64Chunks : List Nat → String
  | [] => ""
  | [a] =>
      String.mk [b64Char (a / 4), b64Char (a % 4 * 16), '=', '=']
  | [a, b] =>
      String.mk [b64Char (a / 4), b64Char (a % 4 * 16 + b / 16),
                 b64Char (b % 16 * 4), '=']
  | a :: b :: c :: rest =>
      String.mk [b64Char (a / 4), b64Char (a % 4 * 16 + b / 16),
                 b64Char (b % 16 * 4 + c / 64), b64Char (c % 64)]
        ++ b64Chunks rest

/-- Model of `s.encode('ascii')`: the code points of the string. -/
def strBytes (s : String) : List Nat := s.toList.map Char.toNat

/-! ### Startup / credential bootstrap (module top level of the source) -/

/-- The three configuration values once accepted. -/
structure Config where
  url : String
  email : String
  token : String
deriving Repr, DecidableEq

/-- Errors raised by the embedded program.  `valueError` carries the message
of a Python `ValueError`; `httpStatus` models `httpx.HTTPStatusError` from
`raise_for_status`; `jsonDecode` a body that fails `response.json()`;
`keyError` a missing dictionary key; `typeError` a JSON value of a shape the
Python code would crash on (conservatively modelled). -/
inductive SrvError where
  | valueError (msg : String) : SrvError
  | httpStatus (status : Nat) : SrvError
  | jsonDecode : SrvError
  | keyError (k : String) : SrvError
  | typeError : SrvError
deriving Repr, DecidableEq

/-- Model of the module-level configuration check:
`if not all([CONFLUENCE_URL, EMAIL, API_TOKEN]): raise ValueError(...)`.
`none` models an unset environment variable; `all` treats both `None` and
`""` as falsy. -/
def startup (url email token : Option String) : Except SrvError Config :=
  if envTruthy url && envTruthy email && envTruthy token then
    .ok { url := url.getD "", email := email.getD "", token := token.getD "" }
  else
    .error (.valueError
      "CONFLUENCE_URL, CONFLUENCE_EMAIL, and CONFLUENCE_API_TOKEN environment variables required")

/-- `base64.b64encode(f"\x7bEMAIL\x7d:\x7bAPI_TOKEN\x7d".encode('ascii')).decode('ascii')`. -/
def base64Auth (cfg : Config) : String :=
  b64Chunks (strBytes (cfg.email ++ ":" ++ cfg.token))

/-- The module-level `headers` dictionary, computed once from the
configuration. -/
def mkHeaders (cfg : Config) : List (String × String) :=
  [("Authorization", "Basic " ++ base64Auth cfg),
   ("Content-Type", "application/json")]

/-! ### HTTP model -/

/-- One outbound GET request: URL (with any inline query string), the
`params` keyword argument, and the headers sent. -/
structure HttpRequest where
  url : String
  params : List (String × String)
  headers : List (String × String)
deriving Repr, DecidableEq

/-- An upstream response: HTTP status and the JSON body, `none` when the body
does not parse as JSON (so `response.json()` raises). -/
structure HttpResponse where
  status : Nat
  body : Option Json
deriving Repr

/-- The network as a deterministic oracle from requests to responses. -/
def World := HttpRequest → HttpResponse

/-- `raise_for_status` succeeds exactly on 2xx statuses. -/
def is2xx (s : Nat) : Bool := 200 ≤ s && s < 300

/-- Character-list version of string-prefix testing (Python
`s.startswith(p)`); structurally recursive so that concrete instances
evaluate in the kernel. -/
def charsPre : List Char → List Char → Bool
  | [], _ => true
  | _ :: _, [] => false
  | p :: ps, c :: cs => p == c && charsPre ps cs

/-- Python `uri_str.startswith(p)`. -/
def pyStartsWith (s p : String) : Bool := charsPre p.toList s.toList

/-- Python `uri_str.split("/")[-1]`: the suffix after the last `/` (the
whole string when it has no `/`), phrased by scanning the reversed
character list. -/
def lastSegment (uri : String) : String :=
  String.mk ((uri.toList.reverse.takeWhile (fun c => c != '/')).reverse)

/-! ### `json.dumps(obj, indent=2)` -/

def hexDigit (n : Nat) : Char :=
  if n < 10 then Char.ofNat (48 + n) else Char.ofNat (87 + n)

def hex4 (n : Nat) : String :=
  String.mk [hexDigit (n / 4096 % 16), hexDigit (n / 256 % 16),
             hexDigit (n / 16 % 16), hexDigit (n % 16)]

/-- JSON string escaping as `json.dumps` performs it (default
`ensure_ascii=True`; astral characters would need surrogate pairs, which no
claim exercises). -/
def escChar (c : Char) : String :=
  if c = '"' then "\\\""
  else if c = '\\' then "\\\\"
  else if c = '\n' then "\\n"
  else if c = '\t' then "\\t"
  else if c = '\r' then "\\r"
  else if c.toNat = 8 then "\\b"
  else if c.toNat = 12 then "\\f"
  else if c.toNat < 32 || 126 < c.toNat then "\\u" ++ hex4 c.toNat
  else String.singleton c

def jsonQuote (s : String) : String :=
  "\"" ++ String.join (s.toList.map escChar) ++ "\""

def pad (n : Nat) : String := String.mk (List.replicate n ' ')

mutual

/-- `json.dumps(j, indent=2)` rendered at nesting level `lvl`. -/
def dumpsVal (lvl : Nat) : Json → String
  | .null => "null"
  | .bool true => "true"
  | .bool false => "false"
  | .num n => toString n
  | .str s => jsonQuote s
  | .arr [] => "[]"
  | .arr (x :: xs) =>
      "[\n" ++ pad ((lvl + 1) * 2) ++ dumpsVal (lvl + 1) x
        ++ dumpsArrRest (lvl + 1) xs ++ "\n" ++ pad (lvl * 2) ++ "]"
  | .obj [] => "\x7b\x7d"
  | .obj (kv :: kvs) =>
      "\x7b\n" ++ pad ((lvl + 1) * 2) ++ jsonQuote kv.1 ++ ": "
        ++ dumpsVal (lvl + 1) kv.2
        ++ dumpsObjRest (lvl + 1) kvs ++ "\n" ++ pad (lvl * 2) ++ "\x7d"

def dumpsArrRest (lvl : Nat) : List Json → String
  | [] => ""
  | x :: xs => ",\n" ++ pad (lvl * 2) ++ dumpsVal lvl x ++ dumpsArrRest lvl xs

def dumpsObjRest (lvl : Nat) : List (String × Json) → String
  | [] => ""
  | kv :: kvs =>
      ",\n" ++ pad (lvl * 2) ++ jsonQuote kv.1 ++ ": " ++ dumpsVal lvl kv.2
        ++ dumpsObjRest lvl kvs

end

/-- `json.dumps(j, indent=2)`. -/
def dumps (j : Json) : String := dumpsVal 0 j

/-! ### HTTP client facade (source functions `search_confluence`,
`get_page_content`) -/

/-- The GET request issued by `search_confluence`. -/
def searchRequest (cfg : Config) (query : String) : HttpRequest :=
  { url := cfg.url ++ "/wiki/rest/api/search",
    params := [("cql", query)],
    headers := mkHeaders cfg }

/-- `search_confluence(query)`: GET the search endpoint with params
`\x7b"cql": query\x7d`, `raise_for_status`, then return
`response.json()["results"]`.  The second component is the trace of issued
requests. -/
def search_confluence (cfg : Config) (world : World) (query : String) :
    Except SrvError Json × List HttpRequest :=
  let req := searchRequest cfg query
  let resp := world req
  if is2xx resp.status then
    match resp.body with
    | none => (.error .jsonDecode, [req])
    | some j =>
        match j.index "results" with
        | none => (.error (.keyError "results"), [req])
        | some r => (.ok r, [req])
  else (.error (.httpStatus resp.status), [req])

/-- The GET request issued by `get_page_content`. -/
def pageRequest (cfg : Config) (page_id : String) : HttpRequest :=
  { url := cfg.url ++ "/wiki/rest/api/content/" ++ page_id
             ++ "?expand=body.storage",
    params := [],
    headers := mkHeaders cfg }

/-- `get_page_content(page_id)`: GET the content endpoint with
`expand=body.storage`, `raise_for_status`, then return `response.json()`. -/
def get_page_content (cfg : Config) (world : World) (page_id : String) :
    Except SrvError Json × List HttpRequest :=
  let req := pageRequest cfg page_id
  let resp := world req
  if is2xx resp.status then
    match resp.body with
    | none => (.error .jsonDecode, [req])
    | some j => (.ok j, [req])
  else (.error (.httpStatus resp.status), [req])

/-! ### Resource catalog (source functions `list_resources`,
`read_resource`) -/

/-- The Resource descriptor built by `list_resources` (mcp.types.Resource;
the URI is kept as its string form). -/
structure Resource where
  uri : String
  name : String
  description : String
  mimeType : String
deriving Repr, DecidableEq

/-- `space.get('description', \x7b\x7d).get('plain', \x7b\x7d).get('value', '')`.
`none` models a crash: a non-dict where `.get` is called (Python
`AttributeError`) or a non-string leaf (rejected by the descriptor model
validation downstream).  A `.get` default only applies when the key is
absent. -/
def descOf (space : Json) : Option String :=
  match space with
  | .obj fields =>
      match (fields.lookup "description").getD (.obj []) with
      | .obj dfields =>
          match (dfields.lookup "plain").getD (.obj []) with
          | .obj pfields =>
              match (pfields.lookup "value").getD (.str "") with
              | .str s => some s
              | _ => none
          | _ => none
      | _ => none
  | _ => none

/-- One descriptor of the `list_resources` comprehension:
`Resource(uri=f"confluence://spaces/\x7bkey\x7d", name=f"Space: \x7bname\x7d",
description=..., mimeType="application/json")`.  `none` models a crash on a
space entry whose `key`/`name` are absent or not strings (string keys and
names are the shape the wiki API documents; URL-quoting of exotic keys by
the URI type is out of modelled scope). -/
def mkResource (space : Json) : Option Resource :=
  match space.index "key", space.index "name", descOf space with
  | some (.str key), some (.str name), some desc =>
      some { uri := "confluence://spaces/" ++ key,
             name := "Space: " ++ name,
             description := desc,
             mimeType := "application/json" }
  | _, _, _ => none

/-- Evaluate `f` on every element left to right, propagating a crash
(`none`) — the list comprehension of `list_resources` under exceptions. -/
def mapOption (f : α → Option β) : List α → Option (List β)
  | [] => some []
  | x :: xs =>
      match f x, mapOption f xs with
      | some y, some ys => some (y :: ys)
      | _, _ => none

/-- The GET request issued by `list_resources`. -/
def spaceListRequest (cfg : Config) : HttpRequest :=
  { url := cfg.url ++ "/wiki/rest/api/space",
    params := [],
    headers := mkHeaders cfg }

/-- `list_resources()`: GET the space endpoint, take
`response.json()["results"]` — note the source performs NO
`raise_for_status` here — and build one `Resource` per space, in order. -/
def list_resources (cfg : Config) (world : World) :
    Except SrvError (List Resource) × List HttpRequest :=
  let req := spaceListRequest cfg
  let resp := world req
  match resp.body with
  | none => (.error .jsonDecode, [req])
  | some j =>
      match j.index "results" with
      | none => (.error (.keyError "results"), [req])
      | some (.arr spaces) =>
          match mapOption mkResource spaces with
          | none => (.error .typeError, [req])
          | some rs => (.ok rs, [req])
      | some _ => (.error .typeError, [req])

/-- The GET request issued by the space branch of `read_resource`. -/
def spaceContentRequest (cfg : Config) (space_key : String) : HttpRequest :=
  { url := cfg.url ++ "/wiki/rest/api/space/" ++ space_key ++ "/content",
    params := [],
    headers := mkHeaders cfg }

/-- `read_resource(uri)`: dispatch on the URI prefix.  The space branch GETs
the space-content endpoint and pretty-prints the body (again no
`raise_for_status` in the source); the page branch delegates to
`get_page_content`; anything else raises
`ValueError(f"Unknown resource: \x7buri\x7d")` without any HTTP call. -/
def read_resource (cfg : Config) (world : World) (uri : String) :
    Except SrvError String × List HttpRequest :=
  if pyStartsWith uri "confluence://spaces/" then
    let req := spaceContentRequest cfg (lastSegment uri)
    let resp := world req
    match resp.body with
    | none => (.error .jsonDecode, [req])
    | some j => (.ok (dumps j), [req])
  else if pyStartsWith uri "confluence://pages/" then
    match get_page_content cfg world (lastSegment uri) with
    | (.ok j, tr) => (.ok (dumps j), tr)
    | (.error e, tr) => (.error e, tr)
  else (.error (.valueError ("Unknown resource: " ++ uri)), [])

/-! ### Tool catalog (source function `call_tool`) -/

/-- `call_tool(name, arguments)`: validate the required argument by
truthiness (`if not query` / `if not page_id`), dispatch to the facade and
pretty-print; unknown names raise `ValueError(f"Unknown tool: \x7bname\x7d")`.
A truthy non-string argument value is conservatively modelled as a crash
(`typeError`); every claim exercises string arguments, matching the tool
input schemas. -/
def call_tool (cfg : Config) (world : World) (name : String)
    (arguments : List (String × Json)) :
    Except SrvError String × List HttpRequest :=
  if name = "search_content" then
    let query := arguments.lookup "query"
    if optTruthy query then
      match query with
      | some (.str q) =>
          match search_confluence cfg world q with
          | (.ok results, tr) => (.ok (dumps results), tr)
          | (.error e, tr) => (.error e, tr)
      | _ => (.error .typeError, [])
    else (.error (.valueError "Query parameter is required"), [])
  else if name = "get_page" then
    let page_id := arguments.lookup "page_id"
    if optTruthy page_id then
      match page_id with
      | some (.str pid) =>
          match get_page_content cfg world pid with
          | (.ok content, tr) => (.ok (dumps content), tr)
          | (.error e, tr) => (.error e, tr)
      | _ => (.error .typeError, [])
    else (.error (.valueError "Page ID parameter is required"), [])
  else (.error (.valueError ("Unknown tool: " ++ name)), [])

/-! ### Concrete fixtures for witnesses and counterexamples -/

/-- A concrete configuration. -/
def cfgW : Config :=
  { url := "https://example.atlassian.net",
    email := "user@example.com", token := "tok123" }

/-- A concrete JSON body holding an empty `results` array. -/
def bodyW : Json := Json.obj [("results", Json.arr [])]

/-- A network oracle answering every request with 200 and `bodyW`. -/
def worldW : World :=
  fun _ => { status := 200, body := some bodyW }

/-- A network oracle answering every request with 500 and a JSON body that
still holds a `results` array. -/
def world500 : World :=
  fun _ => { status := 500, body := some (Json.obj [("results", Json.arr [])]) }

/-- A concrete space entry with key, name and a full description chain. -/
def spaceEx : Json :=
  Json.obj [("key", Json.str "ENG"), ("name", Json.str "Engineering"),
            ("description", Json.obj [("plain",
               Json.obj [("value", Json.str "Eng space")])])]

/-- A network oracle whose space listing returns exactly `spaceEx`. -/
def worldSpaces : World :=
  fun _ => { status := 200, body := some (Json.obj [("results", Json.arr [spaceEx])]) }

end ConfluenceServer

namespace ConfluenceServer

/-- C4: a URI that starts with neither recognized prefix makes
`read_resource` fail with the unrecognized-resource `ValueError` and issue
no HTTP request. -/
theorem read_resource_unknown_uri (cfg : Config) (world : World) (uri : String)
    (h1 : ¬ pyStartsWith uri "confluence://spaces/")
    (h2 : ¬ pyStartsWith uri "confluence://pages/") :
    read_resource cfg world uri =
      (.error (.valueError ("Unknown resource: " ++ uri)), []) := by
  simp [read_resource, h1, h2]

/-- Witness for C4 at `"confluence://unknown/x"`. -/
theorem read_resource_unknown_uri_witness :
    read_resource cfgW worldW "confluence://unknown/x" =
      (.error (.valueError ("Unknown resource: " ++ "confluence://unknown/x")), []) :=
  read_resource_unknown_uri cfgW worldW "confluence://unknown/x"
    (by decide) (by decide)

/-- C5: for each tool, an arguments object lacking the required key makes
`call_tool` fail with that tool's invalid-arguments `ValueError` and issue
no HTTP request. -/
theorem call_tool_missing_argument (cfg : Config) (world : World)
    (args1 args2 : List (String × Json))
    (hq : args1.lookup "query" = none)
    (hp : args2.lookup "page_id" = none) :
    call_tool cfg world "search_content" args1 =
      (.error (.valueError "Query parameter is required"), []) ∧
    call_tool cfg world "get_page" args2 =
      (.error (.valueError "Page ID parameter is required"), []) := by
  constructor <;> simp [call_tool, hq, hp, optTruthy]

/-- Witness for C5 with empty argument objects. -/
theorem call_tool_missing_argument_witness :
    call_tool cfgW worldW "search_content" [] =
      (.error (.valueError "Query parameter is required"), []) ∧
    call_tool cfgW worldW "get_page" [] =
      (.error (.valueError "Page ID parameter is required"), []) :=
  call_tool_missing_argument cfgW worldW [] [] rfl rfl

/-- C7: a tool name other than the two known ones makes `call_tool` fail
with the unknown-tool `ValueError`, whatever the arguments, and issue no
HTTP request. -/
theorem call_tool_unknown_tool (cfg : Config) (world : World) (name : String)
    (args : List (String × Json))
    (h1 : name ≠ "search_content") (h2 : name ≠ "get_page") :
    call_tool cfg world name args =
      (.error (.valueError ("Unknown tool: " ++ name)), []) := by
  simp [call_tool, h1, h2]

/-- Witness for C7 at tool name `"delete_page"`. -/
theorem call_tool_unknown_tool_witness :
    call_tool cfgW worldW "delete_page" [("query", Json.str "x")] =
      (.error (.valueError ("Unknown tool: " ++ "delete_page")), []) :=
  call_tool_unknown_tool cfgW worldW "delete_page" [("query", Json.str "x")]
    (by decide) (by decide)

/-- C8: startup fails with the descriptive configuration `ValueError` when
any of the three configuration values is unset or empty, and produces the
configuration when all three are present and non-empty. -/
theorem startup_config_check (url email token : Option String) :
    ((url = none ∨ url = some "") ∨ (email = none ∨ email = some "")
        ∨ (token = none ∨ token = some "") →
      startup url email token = .error (.valueError
        "CONFLUENCE_URL, CONFLUENCE_EMAIL, and CONFLUENCE_API_TOKEN environment variables required")) ∧
    (∀ u e t : String, url = some u → email = some e → token = some t →
      u ≠ "" → e ≠ "" → t ≠ "" →
      startup url email token = .ok { url := u, email := e, token := t }) := by
  constructor
  · rintro (h | h | h) <;> rcases h with h | h <;> subst h <;>
      simp [startup, envTruthy]
  · rintro u e t rfl rfl rfl hu he ht
    simp [startup, envTruthy, hu, he, ht]

/-- Witness for C8: unset URL fails, full configuration succeeds. -/
theorem startup_config_check_witness :
    startup none (some "user@example.com") (some "tok123") = .error (.valueError
      "CONFLUENCE_URL, CONFLUENCE_EMAIL, and CONFLUENCE_API_TOKEN environment variables required") ∧
    startup (some "https://example.atlassian.net") (some "user@example.com")
        (some "tok123") = .ok cfgW :=
  ⟨(startup_config_check none (some "user@example.com") (some "tok123")).1
      (Or.inl (Or.inl rfl)),
   (startup_config_check (some "https://example.atlassian.net")
      (some "user@example.com") (some "tok123")).2
      "https://example.atlassian.net" "user@example.com" "tok123"
      rfl rfl rfl (by decide) (by decide) (by decide)⟩

/-- C10: a present-but-empty-string required argument is rejected exactly
like an absent one — validation is by truthiness — with no HTTP request; the
result (error and trace) coincides with the absent-key result. -/
theorem call_tool_empty_string_argument (cfg : Config) (world : World)
    (args1 args2 : List (String × Json))
    (hq : args1.lookup "query" = some (Json.str ""))
    (hp : args2.lookup "page_id" = some (Json.str "")) :
    call_tool cfg world "search_content" args1 =
      (.error (.valueError "Query parameter is required"), []) ∧
    call_tool cfg world "get_page" args2 =
      (.error (.valueError "Page ID parameter is required"), []) ∧
    call_tool cfg world "search_content" args1 =
      call_tool cfg world "search_content" [] ∧
    call_tool cfg world "get_page" args2 =
      call_tool cfg world "get_page" [] := by
  refine ⟨?_, ?_, ?_, ?_⟩ <;>
    simp [call_tool, hq, hp, optTruthy, Json.truthy]

/-- Witness for C10 at singleton argument objects holding empty strings. -/
theorem call_tool_empty_string_argument_witness :
    call_tool cfgW worldW "search_content" [("query", Json.str "")] =
      (.error (.valueError "Query parameter is required"), []) ∧
    call_tool cfgW worldW "get_page" [("page_id", Json.str "")] =
      (.error (.valueError "Page ID parameter is required"), []) ∧
    call_tool cfgW worldW "search_content" [("query", Json.str "")] =
      call_tool cfgW worldW "search_content" [] ∧
    call_tool cfgW worldW "get_page" [("page_id", Json.str "")] =
      call_tool cfgW worldW "get_page" [] :=
  call_tool_empty_string_argument cfgW worldW
    [("query", Json.str "")] [("page_id", Json.str "")] rfl rfl

/-- `charsPre p cs` holds exactly when `cs` extends `p`. -/
theorem charsPre_eq_true_iff (p cs : List Char) :
    charsPre p cs = true ↔ ∃ t, cs = p ++ t := by
  induction p generalizing cs with
  | nil => simp [charsPre]
  | cons a as ih =>
      cases cs with
      | nil => simp [charsPre]
      | cons c rest =>
          simp only [charsPre, Bool.and_eq_true, beq_iff_eq, ih,
            List.cons_append, List.cons.injEq]
          constructor
          · rintro ⟨rfl, t, rfl⟩; exact ⟨t, rfl, rfl⟩
          · rintro ⟨t, rfl, rfl⟩; exact ⟨rfl, t, rfl⟩

/-- A URI matching the pages prefix never matches the spaces prefix. -/
theorem pages_not_spaces (uri : String)
    (h : pyStartsWith uri "confluence://pages/" = true) :
    pyStartsWith uri "confluence://spaces/" = false := by
  obtain ⟨t, ht⟩ := (charsPre_eq_true_iff _ _).1 h
  unfold pyStartsWith
  rw [ht]
  rfl

/-- C3: a spaces-URI makes `read_resource` GET the space-content endpoint
for the trailing path segment and return the body pretty-printed with
2-space indentation (the source checks no status here); a pages-URI makes
it GET the content endpoint for the trailing segment with
`expand=body.storage` and, on a 2xx JSON response, return the body
pretty-printed. -/
theorem read_resource_dispatch (cfg : Config) (world : World) (uri : String)
    (j jp : Json) :
    (pyStartsWith uri "confluence://spaces/" →
      (world (spaceContentRequest cfg (lastSegment uri))).body = some j →
      read_resource cfg world uri =
        (.ok (dumps j), [spaceContentRequest cfg (lastSegment uri)]) ∧
      (spaceContentRequest cfg (lastSegment uri)).url =
        cfg.url ++ "/wiki/rest/api/space/" ++ lastSegment uri ++ "/content") ∧
    (pyStartsWith uri "confluence://pages/" →
      is2xx (world (pageRequest cfg (lastSegment uri))).status →
      (world (pageRequest cfg (lastSegment uri))).body = some jp →
      read_resource cfg world uri =
        (.ok (dumps jp), [pageRequest cfg (lastSegment uri)]) ∧
      (pageRequest cfg (lastSegment uri)).url =
        cfg.url ++ "/wiki/rest/api/content/" ++ lastSegment uri
          ++ "?expand=body.storage") := by
  constructor
  · intro hpre hbody
    refine ⟨?_, rfl⟩
    simp [read_resource, hpre, hbody]
  · intro hpre hst hbody
    refine ⟨?_, rfl⟩
    have hsp := pages_not_spaces uri hpre
    simp [read_resource, hsp, hpre, get_page_content, hst, hbody]

/-- Witness for C3 at `"confluence://spaces/ENG"` and
`"confluence://pages/12345"`. -/
theorem read_resource_dispatch_witness :
    (read_resource cfgW worldW "confluence://spaces/ENG" =
        (.ok (dumps bodyW), [spaceContentRequest cfgW "ENG"]) ∧
      (spaceContentRequest cfgW "ENG").url =
        cfgW.url ++ "/wiki/rest/api/space/" ++ "ENG" ++ "/content") ∧
    (read_resource cfgW worldW "confluence://pages/12345" =
        (.ok (dumps bodyW), [pageRequest cfgW "12345"]) ∧
      (pageRequest cfgW "12345").url =
        cfgW.url ++ "/wiki/rest/api/content/" ++ "12345"
          ++ "?expand=body.storage") :=
  ⟨(read_resource_dispatch cfgW worldW "confluence://spaces/ENG"
      bodyW bodyW).1 (by decide) rfl,
   (read_resource_dispatch cfgW worldW "confluence://pages/12345"
      bodyW bodyW).2 (by decide) (by decide) rfl⟩

/-- C6: with the required argument present (a non-empty string),
`callTool("search_content", ...)` issues one search GET whose `cql` query
parameter is the given query and returns the `results` array
pretty-printed, and `callTool("get_page", ...)` issues one page-fetch GET
for the given id with `expand=body.storage` and returns the whole body
pretty-printed. -/
theorem call_tool_dispatch (cfg : Config) (world : World)
    (args1 args2 : List (String × Json)) (q pid : String) (j jp r : Json)
    (hq : args1.lookup "query" = some (Json.str q)) (hq0 : q ≠ "")
    (hst1 : is2xx (world (searchRequest cfg q)).status)
    (hb1 : (world (searchRequest cfg q)).body = some j)
    (hr : j.index "results" = some r)
    (hp : args2.lookup "page_id" = some (Json.str pid)) (hp0 : pid ≠ "")
    (hst2 : is2xx (world (pageRequest cfg pid)).status)
    (hb2 : (world (pageRequest cfg pid)).body = some jp) :
    call_tool cfg world "search_content" args1 =
      (.ok (dumps r), [searchRequest cfg q]) ∧
    (searchRequest cfg q).url = cfg.url ++ "/wiki/rest/api/search" ∧
    (searchRequest cfg q).params = [("cql", q)] ∧
    call_tool cfg world "get_page" args2 =
      (.ok (dumps jp), [pageRequest cfg pid]) ∧
    (pageRequest cfg pid).url =
      cfg.url ++ "/wiki/rest/api/content/" ++ pid ++ "?expand=body.storage" := by
  refine ⟨?_, rfl, rfl, ?_, rfl⟩
  · simp [call_tool, hq, optTruthy, Json.truthy, hq0,
      search_confluence, hst1, hb1, hr]
  · simp [call_tool, hp, optTruthy, Json.truthy, hp0,
      get_page_content, hst2, hb2]

/-- Witness for C6 at query `"type=page"` and page id `"999"`. -/
theorem call_tool_dispatch_witness :
    call_tool cfgW worldW "search_content" [("query", Json.str "type=page")] =
      (.ok (dumps (Json.arr [])), [searchRequest cfgW "type=page"]) ∧
    (searchRequest cfgW "type=page").url =
      cfgW.url ++ "/wiki/rest/api/search" ∧
    (searchRequest cfgW "type=page").params = [("cql", "type=page")] ∧
    call_tool cfgW worldW "get_page" [("page_id", Json.str "999")] =
      (.ok (dumps bodyW), [pageRequest cfgW "999"]) ∧
    (pageRequest cfgW "999").url =
      cfgW.url ++ "/wiki/rest/api/content/" ++ "999" ++ "?expand=body.storage" :=
  call_tool_dispatch cfgW worldW
    [("query", Json.str "type=page")] [("page_id", Json.str "999")]
    "type=page" "999" bodyW bodyW (Json.arr [])
    rfl (by decide) (by decide) rfl rfl rfl (by decide) (by decide) rfl

/-- The descriptor C2 prescribes for a space with the given key, name and
description. -/
def specResource (key name desc : String) : Resource :=
  { uri := "confluence://spaces/" ++ key,
    name := "Space: " ++ name,
    description := desc,
    mimeType := "application/json" }

/-- The per-space relation of C2: whenever the space's key, name and
description evaluate to the given strings, the descriptor is exactly the
prescribed one. -/
def DescribesSpace (s : Json) (r : Resource) : Prop :=
  ∀ key name desc, s.index "key" = some (Json.str key) →
    s.index "name" = some (Json.str name) →
    descOf s = some desc →
    r = specResource key name desc

/-- A space entry whose key and name are strings and whose description
chain evaluates without a crash. -/
def SpaceWF (s : Json) : Prop :=
  ∃ key name desc, s.index "key" = some (Json.str key) ∧
    s.index "name" = some (Json.str name) ∧ descOf s = some desc

theorem mkResource_wf (s : Json) (hwf : SpaceWF s) :
    ∃ r, mkResource s = some r ∧ DescribesSpace s r := by
  obtain ⟨key, name, desc, hk, hn, hd⟩ := hwf
  refine ⟨specResource key name desc, ?_, ?_⟩
  · simp [mkResource, hk, hn, hd, specResource]
  · intro key2 name2 desc2 hk2 hn2 hd2
    rw [hk2] at hk; rw [hn2] at hn; rw [hd2] at hd
    cases hk; cases hn; cases hd; rfl

theorem mapOption_mkResource_wf (spaces : List Json)
    (hwf : ∀ s ∈ spaces, SpaceWF s) :
    ∃ rs, mapOption mkResource spaces = some rs ∧
      List.Forall₂ DescribesSpace spaces rs := by
  induction spaces with
  | nil => exact ⟨[], rfl, .nil⟩
  | cons s ss ih =>
      obtain ⟨r, hr, hds⟩ := mkResource_wf s (hwf s (by simp))
      obtain ⟨rs, hrs, hall⟩ := ih (fun t ht => hwf t (by simp [ht]))
      exact ⟨r :: rs, by simp [mapOption, hr, hrs], .cons hds hall⟩

/-- C2: on a valid space listing, `list_resources` issues one GET to the
space endpoint and returns one descriptor per space in upstream order, with
uri `confluence://spaces/` ++ key, name `Space: ` ++ name, mimeType
`application/json`, and as description the nested plain-text description
value when the whole chain is present and `""` whenever a level of the
chain is absent. -/
theorem list_resources_descriptors (cfg : Config) (world : World)
    (j : Json) (spaces : List Json)
    (hbody : (world (spaceListRequest cfg)).body = some j)
    (hres : j.index "results" = some (Json.arr spaces))
    (hwf : ∀ s ∈ spaces, SpaceWF s) :
    (∃ rs, list_resources cfg world = (.ok rs, [spaceListRequest cfg]) ∧
      List.Forall₂ DescribesSpace spaces rs) ∧
    (∀ s d p v, s.index "description" = some d → d.index "plain" = some p →
      p.index "value" = some (Json.str v) → descOf s = some v) ∧
    (∀ s desc, descOf s = some desc →
      (¬ ∃ d p v, s.index "description" = some d ∧
          d.index "plain" = some p ∧
          p.index "value" = some (Json.str v)) →
      desc = "") := by
  refine ⟨?_, ?_, ?_⟩
  · obtain ⟨rs, hrs, hall⟩ := mapOption_mkResource_wf spaces hwf
    exact ⟨rs, by simp [list_resources, hbody, hres, hrs], hall⟩
  · intro s d p v hd hp hv
    cases s with
    | obj fields =>
        simp only [Json.index] at hd
        cases d with
        | obj dfields =>
            simp only [Json.index] at hp
            cases p with
            | obj pfields =>
                simp only [Json.index] at hv
                simp [descOf, hd, hp, hv]
            | _ => simp [Json.index] at hv
        | _ => simp [Json.index] at hp
    | _ => simp [Json.index] at hd
  · intro s desc hdesc hnot
    cases s with
    | obj fields =>
        simp only [descOf] at hdesc
        cases hd : fields.lookup "description" with
        | none => simp [hd] at hdesc; cases hdesc; rfl
        | some d =>
            rw [hd] at hdesc
            cases d with
            | obj dfields =>
                simp only [Option.getD_some] at hdesc
                cases hp : dfields.lookup "plain" with
                | none => simp [hp] at hdesc; cases hdesc; rfl
                | some p =>
                    rw [hp] at hdesc
                    cases p with
                    | obj pfields =>
                        simp only [Option.getD_some] at hdesc
                        cases hv : pfields.lookup "value" with
                        | none => simp [hv] at hdesc; cases hdesc; rfl
                        | some v =>
                            rw [hv] at hdesc
                            cases v with
                            | str sv =>
                                exact absurd
                                  ⟨Json.obj dfields, Json.obj pfields, sv,
                                    by simp [Json.index, hd],
                                    by simp [Json.index, hp],
                                    by simp [Json.index, hv]⟩ hnot
                            | _ => simp at hdesc
                    | _ => simp at hdesc
            | _ => simp at hdesc
    | _ => simp [descOf] at hdesc

/-- Witness for C2 at a one-space listing. -/
theorem list_resources_descriptors_witness :
    (∃ rs, list_resources cfgW worldSpaces = (.ok rs, [spaceListRequest cfgW]) ∧
      List.Forall₂ DescribesSpace [spaceEx] rs) ∧
    (∀ s d p v, s.index "description" = some d → d.index "plain" = some p →
      p.index "value" = some (Json.str v) → descOf s = some v) ∧
    (∀ s desc, descOf s = some desc →
      (¬ ∃ d p v, s.index "description" = some d ∧
          d.index "plain" = some p ∧
          p.index "value" = some (Json.str v)) →
      desc = "") :=
  list_resources_descriptors cfgW worldSpaces
    (Json.obj [("results", Json.arr [spaceEx])]) [spaceEx] rfl rfl
    (by
      intro s hs
      rw [List.mem_singleton] at hs
      subst hs
      exact ⟨"ENG", "Engineering", "Eng space", rfl, rfl, rfl⟩)

/-! Helper lemmas: every operation's trace carries the startup headers. -/

theorem search_confluence_trace (cfg : Config) (world : World) (q : String) :
    (search_confluence cfg world q).2 = [searchRequest cfg q] := by
  unfold search_confluence
  dsimp only
  split
  · split
    · rfl
    · split <;> rfl
  · rfl

theorem get_page_content_trace (cfg : Config) (world : World) (pid : String) :
    (get_page_content cfg world pid).2 = [pageRequest cfg pid] := by
  unfold get_page_content
  dsimp only
  split
  · split <;> rfl
  · rfl

theorem list_resources_trace (cfg : Config) (world : World) :
    (list_resources cfg world).2 = [spaceListRequest cfg] := by
  unfold list_resources
  dsimp only
  split
  · rfl
  · split
    · rfl
    · split <;> rfl
    · rfl

theorem read_resource_headers (cfg : Config) (world : World) (uri : String) :
    ∀ r ∈ (read_resource cfg world uri).2, r.headers = mkHeaders cfg := by
  intro r hr
  unfold read_resource at hr
  dsimp only at hr
  split at hr
  · split at hr <;> (rw [List.mem_singleton] at hr; subst hr; rfl)
  · split at hr
    · split at hr <;>
        · rename_i heq
          have := congrArg Prod.snd heq
          rw [get_page_content_trace] at this
          rw [← this] at hr
          rw [List.mem_singleton] at hr; subst hr; rfl
    · simp at hr

theorem call_tool_headers (cfg : Config) (world : World) (tool : String)
    (args : List (String × Json)) :
    ∀ r ∈ (call_tool cfg world tool args).2, r.headers = mkHeaders cfg := by
  intro r hr
  unfold call_tool at hr
  dsimp only at hr
  repeat' split at hr
  all_goals
    first
      | (rename_i heq
         have h2 := congrArg Prod.snd heq
         simp only [search_confluence_trace, get_page_content_trace] at h2
         rw [← h2, List.mem_singleton] at hr
         subst hr
         rfl)
      | simp_all

/-- C9: the Authorization header computed at startup is the Basic encoding
of `email:token`, and every request any operation ever issues carries
exactly the startup headers (and hence that same byte-identical
Authorization value). -/
theorem auth_header_shared (cfg : Config) (world : World)
    (q pid uri tool : String) (args : List (String × Json)) :
    (mkHeaders cfg).lookup "Authorization" =
      some ("Basic " ++ b64Chunks (strBytes (cfg.email ++ ":" ++ cfg.token))) ∧
    (∀ r ∈ (search_confluence cfg world q).2, r.headers = mkHeaders cfg) ∧
    (∀ r ∈ (get_page_content cfg world pid).2, r.headers = mkHeaders cfg) ∧
    (∀ r ∈ (list_resources cfg world).2, r.headers = mkHeaders cfg) ∧
    (∀ r ∈ (read_resource cfg world uri).2, r.headers = mkHeaders cfg) ∧
    (∀ r ∈ (call_tool cfg world tool args).2, r.headers = mkHeaders cfg) := by
  refine ⟨rfl, ?_, ?_, ?_, read_resource_headers cfg world uri,
    call_tool_headers cfg world tool args⟩
  · intro r hr
    rw [search_confluence_trace, List.mem_singleton] at hr
    subst hr; rfl
  · intro r hr
    rw [get_page_content_trace, List.mem_singleton] at hr
    subst hr; rfl
  · intro r hr
    rw [list_resources_trace, List.mem_singleton] at hr
    subst hr; rfl

/-- Witness for C9: the one request a concrete search issues carries the
startup headers. -/
theorem auth_header_shared_witness :
    (searchRequest cfgW "type=page").headers = mkHeaders cfgW :=
  (auth_header_shared cfgW worldW "type=page" "999" "confluence://spaces/ENG"
      "search_content" []).2.1 (searchRequest cfgW "type=page")
    (by rw [search_confluence_trace]; exact List.mem_singleton.mpr rfl)

/-- C1 counterexample: on a 500 response whose body still carries a
`results` array, `list_resources` (which never calls `raise_for_status`)
returns a result built from that body instead of failing with an upstream
error carrying the status. -/
theorem list_resources_ignores_status_counterexample :
    ¬ is2xx (world500 (spaceListRequest cfgW)).status ∧
    list_resources cfgW world500 = (.ok [], [spaceListRequest cfgW]) := by
  exact ⟨by decide, rfl⟩

/-- C1 amended: the search and page-fetch operations fail with an upstream
error carrying the status on every non-2xx response; the space-listing and
space-content operations never surface an upstream-status error — they
build their result from the response body without checking the status. -/
theorem upstream_status_amended (cfg : Config) (world : World)
    (q pid uri : String)
    (hs : ¬ is2xx (world (searchRequest cfg q)).status)
    (hp : ¬ is2xx (world (pageRequest cfg pid)).status)
    (hu : pyStartsWith uri "confluence://spaces/") :
    (search_confluence cfg world q).1 =
      .error (.httpStatus (world (searchRequest cfg q)).status) ∧
    (get_page_content cfg world pid).1 =
      .error (.httpStatus (world (pageRequest cfg pid)).status) ∧
    (∀ s, (list_resources cfg world).1 ≠ .error (.httpStatus s)) ∧
    (∀ s, (read_resource cfg world uri).1 ≠ .error (.httpStatus s)) := by
  refine ⟨?_, ?_, ?_, ?_⟩
  · simp [search_confluence, hs]
  · simp [get_page_content, hp]
  · intro s
    unfold list_resources
    dsimp only
    split
    · simp
    · split
      · simp
      · split <;> simp
      · simp
  · intro s
    simp only [read_resource, hu, if_true]
    split <;> simp

/-- Witness for the amended C1 at a concrete 500 world. -/
theorem upstream_status_amended_witness :
    (search_confluence cfgW world500 "type=page").1 =
      .error (.httpStatus 500) ∧
    (get_page_content cfgW world500 "999").1 =
      .error (.httpStatus 500) ∧
    (∀ s, (list_resources cfgW world500).1 ≠ .error (.httpStatus s)) ∧
    (∀ s, (read_resource cfgW world500 "confluence://spaces/ENG").1 ≠
      .error (.httpStatus s)) :=
  upstream_status_amended cfgW world500 "type=page" "999"
    "confluence://spaces/ENG" (by decide) (by decide) (by decide)

end ConfluenceServer
